import Mathlib

set_option maxHeartbeats 1000000
set_option maxRecDepth 100000

/-
  Verification development for the AskDB metadata extraction and AI-formatting
  pipeline (src/metadata_extractor.py, class DatabaseMetadataExtractor).

  The Python class is shallowly embedded: every cursor-level introspection query
  is represented by the rows it returns (or the exception it raises, as
  `Except.error`), and each method of the class becomes a Lean function over
  that representation.  Exceptions that the Python code catches locally are
  resolved inside the corresponding function; exceptions it does not catch
  surface as `Except.error` results of the enclosing operation.
-/

namespace AskDB

/-- A value in a database row as delivered by the `RealDictCursor`:
strings, integers or SQL NULL (`None`).  Sample rows are serialized by the
formatter with `json.dumps(row, default=str)`. -/
inductive PyVal where
  | str (s : String)
  | int (n : Int)
  | null
  deriving DecidableEq

/-- One row as returned by the cursor: an ordered mapping from column name
to value (`RealDictCursor` preserves the select order). -/
abbrev Row := List (String × PyVal)

/-- One row of the `get_columns_info` query (information_schema.columns).
Optional fields are SQL NULLs. -/
structure ColumnInfo where
  column_name : String
  data_type : String
  character_maximum_length : Option Nat
  numeric_precision : Option Nat
  numeric_scale : Option Nat
  is_nullable : String
  column_default : Option String
  column_comment : Option String
  ordinal_position : Nat
  deriving DecidableEq

/-- One row of the `get_tables_info` query. -/
structure TableInfoRow where
  table_name : String
  table_type : String
  table_comment : Option String
  column_count : Nat
  deriving DecidableEq

/-- One row of the `get_views_info` query. -/
structure ViewInfoRow where
  view_name : String
  table_type : String
  view_comment : Option String
  view_definition : Option String
  deriving DecidableEq

/-- One row of the `get_foreign_keys` query. -/
structure FKRow where
  column_name : String
  foreign_table_name : String
  foreign_column_name : String
  constraint_name : String
  update_rule : String
  delete_rule : String
  deriving DecidableEq

/-- One row of the `get_table_relationships` query. -/
structure RelRow where
  from_table : String
  from_column : String
  to_table : String
  to_column : String
  deriving DecidableEq

/-- One edge of the relationship mapping (the dict appended per row in
`get_table_relationships`). -/
structure Edge where
  from_column : String
  to_table : String
  to_column : String
  deriving DecidableEq

/-- One row of the `get_indexes` query (one row per index-column pair). -/
structure IndexRow where
  index_name : String
  column_name : String
  is_unique : Bool
  is_primary : Bool
  index_type : String
  deriving DecidableEq

/-- One aggregated index entry (the per-index dict built in `get_indexes`). -/
structure IndexMeta where
  index_name : String
  columns : List String
  is_unique : Bool
  is_primary : Bool
  index_type : String
  deriving DecidableEq

/-- The single row returned by the per-column statistics query in
`get_column_statistics`. -/
structure StatRow where
  total_rows : Int
  non_null_count : Int
  distinct_count : Int
  deriving DecidableEq

/-- The per-column statistics dict built on the success path of
`get_column_statistics`. -/
structure StatsVals where
  null_count : Int
  null_percentage : ℚ
  distinct_count : Int
  distinct_percentage : ℚ
  deriving DecidableEq

/-- A per-column statistics entry: either the computed values, or the
`{'error': str(e)}` dict stored when the per-column query raised. -/
inductive ColStats where
  | vals (v : StatsVals)
  | err (msg : String)
  deriving DecidableEq

/-- The per-table metadata dict built in `extract_all_metadata`.
`column_statistics` and `sample_data` are `Option` because the corresponding
keys are only put into the dict conditionally. -/
structure TableMeta where
  table_type : String
  comment : Option String
  row_count : Int
  table_size : String
  columns : List ColumnInfo
  primary_keys : List String
  foreign_keys : List FKRow
  indexes : List IndexMeta
  column_statistics : Option (List (String × ColStats))
  sample_data : Option (List Row)
  deriving DecidableEq

/-- The per-view metadata dict built in `extract_all_metadata`. -/
structure ViewMeta where
  view_type : String
  comment : Option String
  definition : Option String
  columns : List ColumnInfo
  sample_data : Option (List Row)
  deriving DecidableEq

/-- The full metadata dict (the Snapshot) assembled by `extract_all_metadata`.
The `tables`, `views` and `relationships` dicts are modelled as association
lists in insertion order, which is how Python dicts iterate. -/
structure Metadata where
  database_name : Option String
  extracted_at : String
  total_tables : Nat
  total_views : Nat
  tables : List (String × TableMeta)
  views : List (String × ViewMeta)
  relationships : List (String × List Edge)
  deriving DecidableEq

/-- The state of the cache file: absent, present but failing to unpickle,
or a well-formed pickled `{'metadata': ..., 'cached_at': ...}` pair.
Times are in seconds. -/
inductive CacheFile where
  | absent
  | corrupt
  | entry (metadata : Metadata) (cached_at : Int)
  deriving DecidableEq

/-- The external database as observed through the cursor: each field gives
the outcome of one introspection query of the source (its result rows, or
`Except.error` for the exception `cursor.execute`/`fetch` raises). -/
structure DB where
  tables_q : Except String (List TableInfoRow)
  views_q : Except String (List ViewInfoRow)
  rel_q : Except String (List RelRow)
  columns_q : String → Except String (List ColumnInfo)
  pkeys_q : String → Except String (List String)
  fkeys_q : String → Except String (List FKRow)
  indexes_q : String → Except String (List IndexRow)
  sample_q : String → Nat → Except String (List Row)
  rowcount_q : String → Except String (Option Int)
  tablesize_q : String → Except String (Option String)
  stat_q : String → String → Except String StatRow

/-- The state of `self.cursor`: never created (`connect` was never called, so
the attribute is missing and using it raises `AttributeError`), closed by
`close()` (using it raises `InterfaceError`), or live over a database. -/
inductive CursorState where
  | absent
  | closed
  | live (db : DB)

/-- The external world one call to `extract_all_metadata` runs against:
the database behind a fresh connection, whether `psycopg2.connect` succeeds,
the cache file content, and the clock (`datetime.now()` as seconds and as the
ISO string).  `database_param` is `connection_params.get('database')`. -/
structure World where
  db : DB
  connect_ok : Bool
  cache : CacheFile
  now : Int
  now_iso : String
  database_param : Option String

/-- The observable outcome of one `extract_all_metadata` call: the returned
value (`Except.error` if an uncaught exception propagates; `some` the metadata
dict, or `none` for the literal empty dict `{}` returned on connection
failure), whether `connect()` was called, whether any introspection query was
issued on the connection, and the cache file afterwards. -/
structure ExtractOutcome where
  result : Except String (Option Metadata)
  connect_called : Bool
  query_issued : Bool
  cache_after : CacheFile

/-- `e` carries a successful result. -/
def isOkE {α : Type} (e : Except String α) : Prop := ∃ a, e = Except.ok a

/-! ## Schema Prober: the query methods of `DatabaseMetadataExtractor`

Methods whose body wraps the query in `try/except` resolve the error case
locally; the others pass the exception through as `Except.error`. -/

/-- `get_tables_info`: enumerates base tables.  No `try`: an error
propagates to the caller. -/
def get_tables_info (db : DB) : Except String (List TableInfoRow) :=
  db.tables_q

/-- `get_views_info`: enumerates views and materialized views.  No `try`. -/
def get_views_info (db : DB) : Except String (List ViewInfoRow) :=
  db.views_q

/-- `get_columns_info`: per-relation column enumeration.  No `try`. -/
def get_columns_info (db : DB) (table_name : String) : Except String (List ColumnInfo) :=
  db.columns_q table_name

/-- `get_primary_keys`: the whole body is inside `try/except`, and the
`except` clause returns `[]`. -/
def get_primary_keys (db : DB) (table_name : String) : List String :=
  match db.pkeys_q table_name with
  | Except.ok rows => rows
  | Except.error _ => []

/-- `get_foreign_keys`: NOT wrapped in `try/except` (unlike its sibling
probes); a query error propagates to the caller. -/
def get_foreign_keys (db : DB) (table_name : String) : Except String (List FKRow) :=
  db.fkeys_q table_name

/-- The per-row grouping step of `get_indexes`: if the dict already holds the
index name (first occurrence kept in insertion order), append the column to
its `columns` list, else create the entry from this row's fields. -/
def addIndexRow (acc : List IndexMeta) (r : IndexRow) : List IndexMeta :=
  match acc with
  | [] => [⟨r.index_name, [r.column_name], r.is_unique, r.is_primary, r.index_type⟩]
  | m :: rest =>
      if m.index_name = r.index_name then
        { m with columns := m.columns ++ [r.column_name] } :: rest
      else
        m :: addIndexRow rest r

/-- `get_indexes`: executes the index query, groups rows by index name into
one entry per index (`list(indexes.values())` in dict insertion order); the
surrounding `try/except` returns `[]` on error. -/
def get_indexes (db : DB) (table_name : String) : List IndexMeta :=
  match db.indexes_q table_name with
  | Except.ok rows => rows.foldl addIndexRow []
  | Except.error _ => []

/-- `get_sample_data`: `SELECT * FROM "table" LIMIT n`; the surrounding
`try/except` returns `[]` on error. -/
def get_sample_data (db : DB) (table_name : String) (limit : Nat) : List Row :=
  match db.sample_q table_name limit with
  | Except.ok rows => rows
  | Except.error _ => []

/-- `get_row_count`: planner estimate; `int(result['estimate']) if result
else 0`, and the surrounding `try/except` returns `0` on error. -/
def get_row_count (db : DB) (table_name : String) : Int :=
  match db.rowcount_q table_name with
  | Except.ok (some estimate) => estimate
  | Except.ok none => 0
  | Except.error _ => 0

/-- `get_table_size`: `pg_size_pretty`; `result['size'] if result else
'Unknown'`, and the surrounding `try/except` returns `'Unknown'` on error. -/
def get_table_size (db : DB) (table_name : String) : String :=
  match db.tablesize_q table_name with
  | Except.ok (some size) => size
  | Except.ok none => "Unknown"
  | Except.error _ => "Unknown"

/-- Python's `round(x, 2)` on the exact rational value: round half to even at
two decimal places.  (CPython rounds the nearest binary double; on the exact
values this embedding computes, half-even on rationals is the faithful
abstraction.) -/
def pyRound2 (q : ℚ) : ℚ :=
  let y : ℚ := q * 100
  let n : ℤ := Int.floor y
  let r : ℚ := y - (n : ℚ)
  let k : ℤ :=
    if r < 1/2 then n
    else if 1/2 < r then n + 1
    else if n % 2 = 0 then n else n + 1
  (k : ℚ) / 100

/-- Lines 260–269 of the source: the statistics dict computed for one column
from the aggregate-query row.  The two percentage divisions are guarded by
`if total > 0`, with `0` taken when the guard fails, so the division is never
evaluated with a zero denominator. -/
def columnStatsOf (result : StatRow) : StatsVals :=
  let total := result.total_rows
  let non_null := result.non_null_count
  let null_count := total - non_null
  { null_count := null_count
    null_percentage :=
      pyRound2 (if total > 0 then (null_count : ℚ) / (total : ℚ) * 100 else 0)
    distinct_count := result.distinct_count
    distinct_percentage :=
      pyRound2 (if total > 0 then (result.distinct_count : ℚ) / (total : ℚ) * 100 else 0) }

/-- `get_column_statistics`: enumerates the columns (uncaught: an error in
`get_columns_info` propagates), then per column runs the aggregate query
inside `try/except`, storing `{'error': str(e)}` for that column on failure.
The stats dict is keyed by column name in column order. -/
def get_column_statistics (db : DB) (table_name : String) :
    Except String (List (String × ColStats)) :=
  match get_columns_info db table_name with
  | Except.error e => Except.error e
  | Except.ok columns =>
      Except.ok (columns.map (fun col =>
        (col.column_name,
          match db.stat_q table_name col.column_name with
          | Except.ok result => ColStats.vals (columnStatsOf result)
          | Except.error e => ColStats.err e)))

/-! ## Relationship Grapher -/

/-- The dict row appended in the loop of `get_table_relationships`. -/
def edgeOf (r : RelRow) : Edge :=
  ⟨r.from_column, r.to_table, r.to_column⟩

/-- One step of the `defaultdict(list)` accumulation in
`get_table_relationships`: append the edge to the list at the row's
`from_table` key (first occurrence, in insertion order), creating the key at
the end when absent. -/
def addRelRow (acc : List (String × List Edge)) (r : RelRow) : List (String × List Edge) :=
  match acc with
  | [] => [(r.from_table, [edgeOf r])]
  | (k, es) :: rest =>
      if k = r.from_table then (k, es ++ [edgeOf r]) :: rest
      else (k, es) :: addRelRow rest r

/-- The grouping loop of `get_table_relationships` over the fetched
foreign-key rows. -/
def groupRelationships (rows : List RelRow) : List (String × List Edge) :=
  rows.foldl addRelRow []

/-- Python dict indexing `d.get(k)` over our association-list model: the
value at the first occurrence of the key. -/
def lookupRel {α : Type} (l : List (String × α)) (k : String) : Option α :=
  match l with
  | [] => none
  | (k', v) :: rest => if k' = k then some v else lookupRel rest k

/-- The rows issued by the relationship query through the current cursor:
using a missing or closed cursor raises. -/
def cursor_rel_query : CursorState → Except String (List RelRow)
  | CursorState.absent => Except.error "AttributeError: no cursor"
  | CursorState.closed => Except.error "InterfaceError: cursor already closed"
  | CursorState.live db => db.rel_q

/-- `get_table_relationships`: executes the schema-wide foreign-key query on
`self.cursor` (no `try`: a missing/closed cursor or a query error raises) and
groups the rows by source table. -/
def get_table_relationships (c : CursorState) : Except String (List (String × List Edge)) :=
  match cursor_rel_query c with
  | Except.error e => Except.error e
  | Except.ok rows => Except.ok (groupRelationships rows)

/-! ## Cache Manager -/

/-- `self.cache_ttl = timedelta(hours=1)`, in seconds. -/
def cache_ttl : Int := 3600

/-- `load_from_cache`: returns `none` (False) when the file is absent, when
unpickling fails (the catch-all `except`), or when `now - cached_at >
cache_ttl`; otherwise stores and returns the cached metadata (True). -/
def load_from_cache (f : CacheFile) (now : Int) : Option Metadata :=
  match f with
  | CacheFile.absent => none
  | CacheFile.corrupt => none
  | CacheFile.entry m cached_at =>
      if now - cached_at > cache_ttl then none else some m

/-- `save_to_cache`: pickles `{'metadata': self.metadata, 'cached_at':
datetime.now()}` over whatever was in the file.  (A write failure is caught
and only logged; the embedding models the successful write.) -/
def save_to_cache (m : Metadata) (now : Int) : CacheFile :=
  CacheFile.entry m now

/-! ## Metadata Aggregator: `extract_all_metadata` -/

/-- The body of the per-table loop of `extract_all_metadata` (lines 366–395):
probes the relation and builds the `(table_name, table_metadata)` pair.  The
uncaught probes (`get_columns_info`, `get_foreign_keys`) propagate their
error; `column_statistics` and `sample_data` keys are added only when the
inclusion flag is set and `row_count > 0`. -/
def processTable (db : DB) (include_samples : Bool) (sample_rows : Nat)
    (include_statistics : Bool) (info : TableInfoRow) :
    Except String (String × TableMeta) :=
  match get_columns_info db info.table_name with
  | Except.error e => Except.error e
  | Except.ok columns =>
    let primary_keys := get_primary_keys db info.table_name
    match get_foreign_keys db info.table_name with
    | Except.error e => Except.error e
    | Except.ok foreign_keys =>
      let indexes := get_indexes db info.table_name
      let row_count := get_row_count db info.table_name
      let table_size := get_table_size db info.table_name
      match (if include_statistics ∧ row_count > 0 then
               (get_column_statistics db info.table_name).map some
             else Except.ok none) with
      | Except.error e => Except.error e
      | Except.ok column_statistics =>
          Except.ok (info.table_name,
            { table_type := info.table_type
              comment := info.table_comment
              row_count := row_count
              table_size := table_size
              columns := columns
              primary_keys := primary_keys
              foreign_keys := foreign_keys
              indexes := indexes
              column_statistics := column_statistics
              sample_data :=
                if include_samples ∧ row_count > 0 then
                  some (get_sample_data db info.table_name sample_rows)
                else none })

/-- The body of the per-view loop of `extract_all_metadata` (lines 398–414):
enumerates the view's columns (uncaught) and, when `include_samples` is set,
unconditionally adds the `sample_data` key (no row-count short-circuit for
views). -/
def processView (db : DB) (include_samples : Bool) (sample_rows : Nat)
    (info : ViewInfoRow) : Except String (String × ViewMeta) :=
  match get_columns_info db info.view_name with
  | Except.error e => Except.error e
  | Except.ok columns =>
      Except.ok (info.view_name,
        { view_type := info.table_type
          comment := info.view_comment
          definition := info.view_definition
          columns := columns
          sample_data :=
            if include_samples then
              some (get_sample_data db info.view_name sample_rows)
            else none })

/-- A Python `for` loop accumulating one result per element, where an
uncaught exception in an iteration aborts the whole loop. -/
def mapME {α β : Type} (f : α → Except String β) : List α → Except String (List β)
  | [] => Except.ok []
  | a :: as =>
      match f a with
      | Except.error e => Except.error e
      | Except.ok b =>
          match mapME f as with
          | Except.error e => Except.error e
          | Except.ok bs => Except.ok (b :: bs)

/-- The `try` block of `extract_all_metadata` after a successful `connect`
(lines 350–422): enumerate tables, views and relationships (each uncaught and
fatal on error), then run the per-table and per-view loops and assemble the
metadata dict. -/
def extractBody (w : World) (include_samples : Bool) (sample_rows : Nat)
    (include_statistics : Bool) : Except String Metadata :=
  match get_tables_info w.db with
  | Except.error e => Except.error e
  | Except.ok tables =>
  match get_views_info w.db with
  | Except.error e => Except.error e
  | Except.ok views =>
  match get_table_relationships (CursorState.live w.db) with
  | Except.error e => Except.error e
  | Except.ok relationships =>
  match mapME (processTable w.db include_samples sample_rows include_statistics) tables with
  | Except.error e => Except.error e
  | Except.ok tablePairs =>
  match mapME (processView w.db include_samples sample_rows) views with
  | Except.error e => Except.error e
  | Except.ok viewPairs =>
      Except.ok
        { database_name := w.database_param
          extracted_at := w.now_iso
          total_tables := tables.length
          total_views := views.length
          tables := tablePairs
          views := viewPairs
          relationships := relationships }

/-- `extract_all_metadata` (lines 327–425): on `use_cache`, a fresh cache hit
short-circuits before any connection is opened or query issued; otherwise a
failed `connect` returns the literal empty dict `{}` (modelled `none`); else
the body runs (its `finally` closes the connection on every path), the result
is written through the cache when `use_cache` is set, and the metadata dict is
returned.  An exception escaping the body propagates to the caller. -/
def extract_all_metadata (w : World) (include_samples : Bool) (sample_rows : Nat)
    (include_statistics : Bool) (use_cache : Bool) : ExtractOutcome :=
  match (if use_cache then load_from_cache w.cache w.now else none) with
  | some m =>
      { result := Except.ok (some m)
        connect_called := false
        query_issued := false
        cache_after := w.cache }
  | none =>
      if w.connect_ok then
        match extractBody w include_samples sample_rows include_statistics with
        | Except.ok m =>
            { result := Except.ok (some m)
              connect_called := true
              query_issued := true
              cache_after := if use_cache then save_to_cache m w.now else w.cache }
        | Except.error e =>
            { result := Except.error e
              connect_called := true
              query_issued := true
              cache_after := w.cache }
      else
        { result := Except.ok none
          connect_called := true
          query_issued := false
          cache_after := w.cache }

/-! ## AI Text Formatter: `format_for_ai` and `generate_relationship_diagram`

String helpers model the Python formatting primitives the source leans on:
f-string rendering of `None`, truthiness of optional fields, `"{:,}"` integer
grouping, `json.dumps(row, default=str)`, and the repr of two-decimal
floats. -/

/-- An f-string interpolation of a value that may be `None`. -/
def pyOpt (o : Option String) : String :=
  match o with
  | some s => s
  | none => "None"

/-- Python truthiness of an optional integer field (`None` and `0` are
falsy). -/
def optNatTruthy (o : Option Nat) : Bool :=
  match o with
  | some n => n ≠ 0
  | none => false

/-- Python truthiness of an optional string field (`None` and `""` are
falsy). -/
def optStrTruthy (o : Option String) : Bool :=
  match o with
  | some s => s ≠ ""
  | none => false

/-- `"="*80`. -/
def eqBar : String := String.mk (List.replicate 80 '=')

/-- `"-"*80`. -/
def dashBar : String := String.mk (List.replicate 80 '-')

/-- Group a reversed digit list with a comma after every third digit. -/
def group3 : List Char → List Char
  | a :: b :: c :: d :: rest => a :: b :: c :: ',' :: group3 (d :: rest)
  | l => l

/-- Python's `"{:,}".format(n)`: thousands separators. -/
def pyCommaInt (n : Int) : String :=
  (if n < 0 then "-" else "") ++
    String.mk ((group3 (toString n.natAbs).toList.reverse).reverse)

/-- JSON string escaping as `json.dumps` performs it (quote and backslash;
the sample values this formatter meets contain no control characters). -/
def jsonEscape (s : String) : String :=
  String.join (s.toList.map (fun c =>
    if c = '"' then "\\\""
    else if c = '\\' then "\\\\"
    else String.mk [c]))

/-- A JSON string literal. -/
def jsonStr (s : String) : String := "\"" ++ jsonEscape s ++ "\""

/-- One value as `json.dumps` renders it. -/
def jsonVal : PyVal → String
  | PyVal.str s => jsonStr s
  | PyVal.int n => toString n
  | PyVal.null => "null"

/-- `json.dumps(row, default=str)`: keys in insertion order, `", "` between
pairs, `": "` after each key. -/
def jsonDumps (row : Row) : String :=
  "\x7b" ++
    String.intercalate ", " (row.map (fun p => jsonStr p.1 ++ ": " ++ jsonVal p.2)) ++
  "\x7d"

/-- The repr of a float holding a value rounded to two decimals, as an
f-string renders it: at least one fractional digit, trailing zero trimmed
(`0.0`, `12.5`, `3.33`, `0.05`). -/
def floatRepr2 (q : ℚ) : String :=
  let neg := q < 0
  let k : ℤ := Int.floor (|q| * 100)
  let whole := k / 100
  let frac := k % 100
  let fracStr :=
    if frac = 0 then "0"
    else if frac % 10 = 0 then toString (frac / 10)
    else if frac < 10 then "0" ++ toString frac
    else toString frac
  (if neg then "-" else "") ++ toString whole ++ "." ++ fracStr

/-- `generate_relationship_diagram` (lines 307–325): re-runs the relationship
query on `self.cursor` (raising if the cursor is missing or closed) and
renders the banner, one `📊 TABLE` line per source table and one arrow line
per edge, or the no-relationships notice. -/
def generate_relationship_diagram (c : CursorState) : Except String String :=
  match get_table_relationships c with
  | Except.error e => Except.error e
  | Except.ok relationships =>
      let header := ["\n" ++ eqBar, "DATABASE RELATIONSHIP DIAGRAM", eqBar ++ "\n"]
      if relationships.isEmpty then
        Except.ok (String.intercalate "\n"
          (header ++ ["No foreign key relationships found in the database.\n"]))
      else
        Except.ok (String.intercalate "\n"
          (header ++
            (relationships.map (fun p =>
              ("\n📊 " ++ p.1.toUpper) ::
                p.2.map (fun rel =>
                  "   └─→ " ++ rel.from_column ++ " references " ++
                    rel.to_table ++ "." ++ rel.to_column))).flatten ++
            ["\n" ++ eqBar ++ "\n"]))

/-- The column line built in the per-table loop of `format_for_ai` (lines
466–492): name and type, `(length)` or `(precision[,scale])` by truthiness,
nullability, truthy default, the inline statistics annotation when the table
has a `column_statistics` key and the column's stats entry has a
`null_percentage` key (the per-column `error` entry has not), and the
comment on a continuation line. -/
def formatColumn (column_statistics : Option (List (String × ColStats)))
    (col : ColumnInfo) : String :=
  let base := "  • " ++ col.column_name ++ ": " ++ col.data_type
  let withLen :=
    if optNatTruthy col.character_maximum_length then
      base ++ "(" ++ toString (col.character_maximum_length.getD 0) ++ ")"
    else if optNatTruthy col.numeric_precision then
      base ++ "(" ++ toString (col.numeric_precision.getD 0) ++
        (if optNatTruthy col.numeric_scale then
          "," ++ toString (col.numeric_scale.getD 0)
         else "") ++ ")"
    else base
  let withNull :=
    withLen ++ " " ++ (if col.is_nullable = "YES" then "NULL" else "NOT NULL")
  let withDefault :=
    if optStrTruthy col.column_default then
      withNull ++ " DEFAULT " ++ col.column_default.getD ""
    else withNull
  let withStats :=
    match column_statistics with
    | none => withDefault
    | some stats =>
        match lookupRel stats col.column_name with
        | some (ColStats.vals v) =>
            withDefault ++ " [Nulls: " ++ floatRepr2 v.null_percentage ++
              "%, Distinct: " ++ toString v.distinct_count ++ "]"
        | some (ColStats.err _) => withDefault
        | none => withDefault
  if optStrTruthy col.column_comment then
    withStats ++ "\n    Comment: " ++ col.column_comment.getD ""
  else withStats

/-- The two-line foreign-key rendering (lines 497–500). -/
def fkLine (fk : FKRow) : String :=
  "  • " ++ fk.column_name ++ " → " ++ fk.foreign_table_name ++ "." ++
    fk.foreign_column_name ++
    "\n    ON UPDATE: " ++ fk.update_rule ++ ", ON DELETE: " ++ fk.delete_rule

/-- The index rendering (lines 505–509): role label by precedence, primary
over unique over plain. -/
def idxLine (idx : IndexMeta) : String :=
  let idx_type :=
    if idx.is_primary then "PRIMARY KEY"
    else if idx.is_unique then "UNIQUE" else "INDEX"
  "  • " ++ idx.index_name ++ " (" ++ idx_type ++ ", " ++ idx.index_type ++
    ") on [" ++ String.intercalate ", " idx.columns ++ "]"

/-- `"  Row i: json"` lines, numbering from 1 (lines 514–515, 540–541). -/
def sampleLines (rows : List Row) : List String :=
  rows.enum.map (fun p => "  Row " ++ toString (p.1 + 1) ++ ": " ++ jsonDumps p.2)

/-- One table section of `format_for_ai` (lines 449–515). -/
def formatTable (p : String × TableMeta) : List String :=
  let name := p.1
  let td := p.2
  ["\n" ++ eqBar, "TABLE: " ++ name, eqBar,
   "Type: " ++ td.table_type,
   "Row Count: ~" ++ pyCommaInt td.row_count,
   "Size: " ++ td.table_size] ++
  (if optStrTruthy td.comment then ["Description: " ++ td.comment.getD ""] else []) ++
  (if td.primary_keys ≠ [] then
     ["\nPrimary Key(s): " ++ String.intercalate ", " td.primary_keys]
   else []) ++
  ["\nCOLUMNS (" ++ toString td.columns.length ++ "):"] ++
  td.columns.map (formatColumn td.column_statistics) ++
  (if td.foreign_keys ≠ [] then
     "\nFOREIGN KEYS:" :: td.foreign_keys.map fkLine
   else []) ++
  (if td.indexes ≠ [] then
     "\nINDEXES:" :: td.indexes.map idxLine
   else []) ++
  (match td.sample_data with
   | some rows =>
       if rows.length > 0 then
         ("\nSAMPLE DATA (first " ++ toString rows.length ++ " rows):") ::
           sampleLines rows
       else []
   | none => [])

/-- One view section of `format_for_ai` (lines 523–541).  The sample block is
guarded by `view_data.get('sample_data')` alone, so an empty list (falsy) is
skipped. -/
def formatView (p : String × ViewMeta) : List String :=
  let name := p.1
  let vd := p.2
  ["\n" ++ dashBar, "VIEW: " ++ name, dashBar,
   "Type: " ++ vd.view_type] ++
  (if optStrTruthy vd.comment then ["Description: " ++ vd.comment.getD ""] else []) ++
  ["\nDefinition:\n" ++ pyOpt vd.definition,
   "\nCOLUMNS (" ++ toString vd.columns.length ++ "):"] ++
  vd.columns.map (fun col => "  • " ++ col.column_name ++ ": " ++ col.data_type) ++
  (match vd.sample_data with
   | some rows =>
       if rows ≠ [] then "\nSAMPLE DATA:" :: sampleLines rows
       else []
   | none => [])

/-- `format_for_ai` (lines 427–543): returns the placeholder string when
`self.metadata` is the falsy empty dict; otherwise renders the header, then
calls `generate_relationship_diagram()` — which goes back to `self.cursor`
and the live database rather than the snapshot's own `relationships` entry,
raising when the cursor is missing or closed — then the detailed per-table
and per-view sections, joined with newlines. -/
def format_for_ai (metadata : Option Metadata) (c : CursorState) :
    Except String String :=
  match metadata with
  | none => Except.ok "No metadata available. Run extract_all_metadata() first."
  | some m =>
      match generate_relationship_diagram c with
      | Except.error e => Except.error e
      | Except.ok diagram =>
          Except.ok (String.intercalate "\n"
            (["DATABASE: " ++ pyOpt m.database_name,
              "Extracted: " ++ m.extracted_at,
              "Total Tables: " ++ toString m.total_tables,
              "Total Views: " ++ toString m.total_views ++ "\n",
              diagram,
              eqBar, "DETAILED SCHEMA INFORMATION", eqBar] ++
             (m.tables.map formatTable).flatten ++
             (if m.views ≠ [] then
                ["\n\n" ++ eqBar, "VIEWS AND MATERIALIZED VIEWS", eqBar] ++
                  (m.views.map formatView).flatten
              else [])))

/-! ## Concrete instances used by witnesses and counterexamples -/

/-- A small concrete snapshot (used to instantiate cache theorems). -/
def mEx : Metadata :=
  { database_name := some "shop"
    extracted_at := "2026-10-12T00:00:00"
    total_tables := 0
    total_views := 0
    tables := []
    views := []
    relationships := [] }

/-- A database on which every introspection query succeeds with empty
results. -/
def dbEmpty : DB :=
  { tables_q := Except.ok []
    views_q := Except.ok []
    rel_q := Except.ok []
    columns_q := fun _ => Except.ok []
    pkeys_q := fun _ => Except.ok []
    fkeys_q := fun _ => Except.ok []
    indexes_q := fun _ => Except.ok []
    sample_q := fun _ _ => Except.ok []
    rowcount_q := fun _ => Except.ok (some 0)
    tablesize_q := fun _ => Except.ok (some "0 bytes")
    stat_q := fun _ _ => Except.ok ⟨0, 0, 0⟩ }

/-! ## Claim C6 -/

/-- C6.  The cache `get` (`load_from_cache`) misses — returning `none`, never
raising, since its body catches every exception — in exactly three
situations: no entry exists, the entry fails to unpickle, or the entry's age
`now - cached_at` exceeds the one-hour TTL; in every other situation it
returns the stored snapshot. -/
theorem cache_get_miss_iff (f : CacheFile) (now : Int) :
    (load_from_cache f now = none ↔
      f = CacheFile.absent ∨ f = CacheFile.corrupt ∨
        ∃ m t, f = CacheFile.entry m t ∧ now - t > cache_ttl)
    ∧ ∀ m t, f = CacheFile.entry m t → ¬ now - t > cache_ttl →
        load_from_cache f now = some m := by
  constructor
  · cases f with
    | absent => simp [load_from_cache]
    | corrupt => simp [load_from_cache]
    | entry m t =>
        simp only [load_from_cache]
        constructor
        · intro h
          refine Or.inr (Or.inr ⟨m, t, rfl, ?_⟩)
          by_contra hc
          rw [if_neg hc] at h
          exact Option.noConfusion h
        · rintro (h | h | ⟨m', t', he, ht⟩)
          · exact CacheFile.noConfusion h
          · exact CacheFile.noConfusion h
          · obtain ⟨rfl, rfl⟩ : m = m' ∧ t = t' := by
              cases he; exact ⟨rfl, rfl⟩
            exact if_pos ht
  · rintro m t rfl h
    simp only [load_from_cache]
    exact if_neg h

/-- Witness for C6: a fresh, well-formed entry is returned. -/
theorem cache_get_miss_iff_witness :
    ¬ ((10 : Int) - 5 > cache_ttl) ∧
      load_from_cache (CacheFile.entry mEx 5) 10 = some mEx :=
  ⟨by decide, (cache_get_miss_iff (CacheFile.entry mEx 5) 10).2 mEx 5 rfl (by decide)⟩

/-! ## Claim C7 -/

/-- C7.  Cache round-trip: a `save_to_cache` at time `t` followed by a
`load_from_cache` at any time `now` within the TTL window returns exactly the
snapshot that was stored. -/
theorem cache_roundtrip (m : Metadata) (t now : Int) (h : now - t ≤ cache_ttl) :
    load_from_cache (save_to_cache m t) now = some m := by
  simp only [load_from_cache, save_to_cache]
  exact if_neg (by omega)

/-- Witness for C7 at a concrete snapshot and concrete times. -/
theorem cache_roundtrip_witness :
    (10 : Int) - 0 ≤ cache_ttl ∧
      load_from_cache (save_to_cache mEx 0) 10 = some mEx :=
  ⟨by decide, cache_roundtrip mEx 0 10 (by decide)⟩

/-! ## Claim C9 -/

/-- `round(0, 2)` is `0`. -/
theorem pyRound2_zero : pyRound2 0 = 0 := by
  norm_num [pyRound2]

/-- C9.  In the per-column statistics computation, when the counted total
number of rows is `0` both percentage fields are `0`: the guard
`if total > 0` selects the constant-`0` branch, so neither division is
evaluated with a zero denominator. -/
theorem stats_zero_rows_guard (r : StatRow) (h : r.total_rows = 0) :
    (columnStatsOf r).null_percentage = 0 ∧
      (columnStatsOf r).distinct_percentage = 0 := by
  simp only [columnStatsOf, h]
  norm_num [pyRound2_zero]

/-- Witness for C9: a column whose aggregate query counted zero rows. -/
theorem stats_zero_rows_guard_witness :
    (StatRow.mk 0 0 5).total_rows = 0 ∧
      ((columnStatsOf ⟨0, 0, 5⟩).null_percentage = 0 ∧
        (columnStatsOf ⟨0, 0, 5⟩).distinct_percentage = 0) :=
  ⟨rfl, stats_zero_rows_guard ⟨0, 0, 5⟩ rfl⟩

/-! ## Claim C8 -/

/-- The discovery-ordered, unde-duplicated edges out of `t` in a row list. -/
def relSpec (rows : List RelRow) (t : String) : List Edge :=
  (rows.filter (fun r => decide (r.from_table = t))).map edgeOf

theorem lookupRel_addRelRow (acc : List (String × List Edge)) (r : RelRow) (t : String) :
    lookupRel (addRelRow acc r) t =
      if r.from_table = t then some ((lookupRel acc t).getD [] ++ [edgeOf r])
      else lookupRel acc t := by
  induction acc with
  | nil =>
      by_cases h : r.from_table = t <;>
        simp [addRelRow, lookupRel, h]
  | cons p rest ih =>
      obtain ⟨k, es⟩ := p
      by_cases hk : k = r.from_table
      · by_cases ht : k = t
        · have hft : r.from_table = t := by rw [← hk]; exact ht
          simp [addRelRow, lookupRel, hk, ht, hft]
        · have hft : ¬ r.from_table = t := by rw [← hk]; exact ht
          simp [addRelRow, lookupRel, hk, ht, hft]
      · by_cases ht : k = t
        · have hft : ¬ r.from_table = t := by
            intro hh
            exact hk (by rw [ht, hh])
          have hk' : ¬ t = r.from_table := by rw [← ht]; exact hk
          simp [addRelRow, lookupRel, hk, ht, hk', hft]
        · simp [addRelRow, lookupRel, hk, ht, ih]

theorem lookupRel_foldl (rows : List RelRow) :
    ∀ (acc : List (String × List Edge)) (t : String),
      lookupRel (rows.foldl addRelRow acc) t =
        match lookupRel acc t with
        | some es => some (es ++ relSpec rows t)
        | none => if relSpec rows t = [] then none else some (relSpec rows t) := by
  induction rows with
  | nil =>
      intro acc t
      simp only [List.foldl_nil, relSpec, List.filter_nil, List.map_nil]
      cases lookupRel acc t <;> simp
  | cons r rest ih =>
      intro acc t
      rw [List.foldl_cons, ih (addRelRow acc r) t, lookupRel_addRelRow]
      by_cases h : r.from_table = t
      · have hspec : relSpec (r :: rest) t = edgeOf r :: relSpec rest t := by
          simp [relSpec, List.filter_cons, h]
        rw [if_pos h, hspec]
        cases hl : lookupRel acc t <;> simp
      · have hspec : relSpec (r :: rest) t = relSpec rest t := by
          simp [relSpec, List.filter_cons, h]
        rw [if_neg h, hspec]

theorem addRelRow_vals_nonempty (acc : List (String × List Edge)) (r : RelRow)
    (h : ∀ p ∈ acc, p.2 ≠ []) : ∀ p ∈ addRelRow acc r, p.2 ≠ [] := by
  induction acc with
  | nil =>
      intro p hp
      simp only [addRelRow, List.mem_singleton] at hp
      subst hp
      simp
  | cons q rest ih =>
      obtain ⟨k, es⟩ := q
      intro p hp
      simp only [addRelRow] at hp
      by_cases hk : k = r.from_table
      · rw [if_pos hk] at hp
        rcases List.mem_cons.mp hp with hp | hp
        · subst hp; simp
        · exact h p (List.mem_cons_of_mem _ hp)
      · rw [if_neg hk] at hp
        rcases List.mem_cons.mp hp with hp | hp
        · subst hp
          exact h (k, es) (List.mem_cons_self _ _)
        · exact ih (fun q hq => h q (List.mem_cons_of_mem _ hq)) p hp

theorem foldl_vals_nonempty (rows : List RelRow) :
    ∀ acc, (∀ p ∈ acc, p.2 ≠ []) →
      ∀ p ∈ rows.foldl addRelRow acc, p.2 ≠ [] := by
  induction rows with
  | nil => intro acc h; simpa using h
  | cons r rest ih =>
      intro acc h
      rw [List.foldl_cons]
      exact ih (addRelRow acc r) (addRelRow_vals_nonempty acc r h)

/-- C8.  The relationship mapping built by `get_table_relationships` from the
foreign-key rows has an entry exactly for the source tables with at least one
outgoing foreign key — its value is the discovery-ordered, unde-duplicated
list of that table's edges — and never holds an entry with an empty edge
list. -/
theorem relationships_exactly_fk_sources (rows : List RelRow) (t : String) :
    (lookupRel (groupRelationships rows) t =
      if relSpec rows t = [] then none else some (relSpec rows t))
    ∧ ∀ p ∈ groupRelationships rows, p.2 ≠ [] := by
  constructor
  · have h := lookupRel_foldl rows [] t
    simpa [groupRelationships, lookupRel] using h
  · exact foldl_vals_nonempty rows [] (by simp)

/-- Two foreign keys out of `orders`, discovered in this order. -/
def relRowsEx : List RelRow :=
  [⟨"orders", "user_id", "users", "id"⟩, ⟨"orders", "shop_id", "shops", "id"⟩]

/-- Witness for C8 on a concrete row set: `orders` is mapped to its two
edges in discovery order, the entry is non-empty, and a table with no
outgoing foreign key (`users`) is absent. -/
theorem relationships_exactly_fk_sources_witness :
    lookupRel (groupRelationships relRowsEx) "orders" =
        some [⟨"user_id", "users", "id"⟩, ⟨"shop_id", "shops", "id"⟩]
    ∧ lookupRel (groupRelationships relRowsEx) "users" = none
    ∧ ("orders", [Edge.mk "user_id" "users" "id", Edge.mk "shop_id" "shops" "id"])
        ∈ groupRelationships relRowsEx
    ∧ ([Edge.mk "user_id" "users" "id", Edge.mk "shop_id" "shops" "id"] : List Edge) ≠ [] := by
  refine ⟨?_, ?_, by decide, ?_⟩
  · rw [(relationships_exactly_fk_sources relRowsEx "orders").1]
    decide
  · rw [(relationships_exactly_fk_sources relRowsEx "users").1]
    decide
  · exact (relationships_exactly_fk_sources relRowsEx "orders").2
      ("orders", [Edge.mk "user_id" "users" "id", Edge.mk "shop_id" "shops" "id"])
      (by decide)

/-! ## Claim C4 -/

/-- C4.  A call with `use_cache = true` that hits a fresh cache entry returns
that snapshot unchanged whatever the three inclusion arguments are, opens no
database connection, and issues no introspection query; the cache file is
left as it was. -/
theorem cache_hit_returns_cached_unchanged (w : World) (m : Metadata)
    (h : load_from_cache w.cache w.now = some m)
    (s1 s2 t1 t2 : Bool) (r1 r2 : Nat) :
    (extract_all_metadata w s1 r1 t1 true).result = Except.ok (some m)
    ∧ (extract_all_metadata w s1 r1 t1 true).connect_called = false
    ∧ (extract_all_metadata w s1 r1 t1 true).query_issued = false
    ∧ (extract_all_metadata w s1 r1 t1 true).cache_after = w.cache
    ∧ extract_all_metadata w s1 r1 t1 true = extract_all_metadata w s2 r2 t2 true := by
  simp [extract_all_metadata, h]

/-- A world holding a fresh cache entry for `mEx`. -/
def wHit : World :=
  { db := dbEmpty
    connect_ok := true
    cache := CacheFile.entry mEx 0
    now := 10
    now_iso := "2026-10-12T00:00:10"
    database_param := some "shop" }

/-- Witness for C4: on the concrete fresh-hit world, the cached snapshot is
served with no connection and no query, for two different flag settings. -/
theorem cache_hit_returns_cached_unchanged_witness :
    load_from_cache wHit.cache wHit.now = some mEx ∧
      ((extract_all_metadata wHit true 3 true true).result = Except.ok (some mEx)
      ∧ (extract_all_metadata wHit true 3 true true).connect_called = false
      ∧ (extract_all_metadata wHit true 3 true true).query_issued = false
      ∧ (extract_all_metadata wHit true 3 true true).cache_after = wHit.cache
      ∧ extract_all_metadata wHit true 3 true true
          = extract_all_metadata wHit false 0 false true) :=
  ⟨rfl, cache_hit_returns_cached_unchanged wHit mEx rfl true false true false 3 0⟩

/-! ## Inversion helpers for the fresh-extraction path -/

theorem extract_fresh_ok (w : World) (s : Bool) (r : Nat) (st u : Bool) (m : Metadata)
    (hfresh : (if u then load_from_cache w.cache w.now else none) = none)
    (hres : (extract_all_metadata w s r st u).result = Except.ok (some m)) :
    extractBody w s r st = Except.ok m := by
  unfold extract_all_metadata at hres
  rw [hfresh] at hres
  by_cases hconn : w.connect_ok
  · rw [if_pos hconn] at hres
    cases hbody : extractBody w s r st with
    | error e => rw [hbody] at hres; simp at hres
    | ok m' =>
        rw [hbody] at hres
        simp only [Except.ok.injEq, Option.some.injEq] at hres
        rw [hres]
  · rw [if_neg hconn] at hres
    simp at hres

theorem extractBody_ok_parts (w : World) (s : Bool) (r : Nat) (st : Bool)
    (m : Metadata) (h : extractBody w s r st = Except.ok m) :
    (∃ tables, get_tables_info w.db = Except.ok tables ∧
        mapME (processTable w.db s r st) tables = Except.ok m.tables)
    ∧ (∃ views, get_views_info w.db = Except.ok views ∧
        mapME (processView w.db s r) views = Except.ok m.views) := by
  unfold extractBody at h
  split at h
  · simp at h
  · rename_i tables h1
    split at h
    · simp at h
    · rename_i views h2
      split at h
      · simp at h
      · rename_i rels h3
        split at h
        · simp at h
        · rename_i tablePairs h4
          split at h
          · simp at h
          · rename_i viewPairs h5
            simp only [Except.ok.injEq] at h
            subst h
            exact ⟨⟨tables, h1, by simpa using h4⟩, ⟨views, h2, by simpa using h5⟩⟩

theorem mapME_mem_ok {α β : Type} (f : α → Except String β) (l : List α)
    (l' : List β) (h : mapME f l = Except.ok l') (b : β) (hb : b ∈ l') :
    ∃ a ∈ l, f a = Except.ok b := by
  induction l generalizing l' with
  | nil =>
      simp only [mapME, Except.ok.injEq] at h
      subst h
      simp at hb
  | cons a as ih =>
      unfold mapME at h
      cases hfa : f a with
      | error e => rw [hfa] at h; simp at h
      | ok b0 =>
          rw [hfa] at h
          cases hrest : mapME f as with
          | error e => rw [hrest] at h; simp at h
          | ok bs =>
              rw [hrest] at h
              simp only [Except.ok.injEq] at h
              subst h
              rcases List.mem_cons.mp hb with hb | hb
              · exact ⟨a, List.mem_cons_self _ _, by rw [hfa, hb]⟩
              · obtain ⟨a', ha', hfa'⟩ := ih bs hrest hb
                exact ⟨a', List.mem_cons_of_mem _ ha', hfa'⟩

theorem mapME_isOk {α β : Type} (f : α → Except String β) (l : List α)
    (h : ∀ a ∈ l, isOkE (f a)) : isOkE (mapME f l) := by
  induction l with
  | nil => exact ⟨[], rfl⟩
  | cons a as ih =>
      obtain ⟨b, hb⟩ := h a (List.mem_cons_self _ _)
      obtain ⟨bs, hbs⟩ := ih (fun x hx => h x (List.mem_cons_of_mem _ hx))
      refine ⟨b :: bs, ?_⟩
      unfold mapME
      rw [hb, hbs]

/-! ## Claim C5 -/

theorem processTable_zero_rows (db : DB) (s : Bool) (r : Nat) (st : Bool)
    (info : TableInfoRow) (t : String) (tm : TableMeta)
    (h : processTable db s r st info = Except.ok (t, tm)) (h0 : tm.row_count = 0) :
    tm.column_statistics = none ∧ tm.sample_data = none := by
  simp only [processTable] at h
  split at h
  · simp at h
  · rename_i columns hc
    split at h
    · simp at h
    · rename_i fks hf
      split at h
      · simp at h
      · rename_i cs hcs
        simp only [Except.ok.injEq, Prod.mk.injEq] at h
        obtain ⟨hteq, htm⟩ := h
        subst htm
        have h0' : get_row_count db info.table_name = 0 := h0
        have hcond : ¬ (st = true ∧ get_row_count db info.table_name > 0) := by
          rintro ⟨-, hgt⟩
          rw [h0'] at hgt
          exact lt_irrefl 0 hgt
        constructor
        · rw [if_neg hcond] at hcs
          have : (none : Option (List (String × ColStats))) = cs := by
            simpa using hcs
          exact this.symm
        · show (if s = true ∧ get_row_count db info.table_name > 0 then
              some (get_sample_data db info.table_name r) else none) = none
          exact if_neg (by
            rintro ⟨-, hgt⟩
            rw [h0'] at hgt
            exact lt_irrefl 0 hgt)

/-- C5.  On the fresh extraction path, a table whose probed `row_count` is
`0` gets a `TableMeta` with no `column_statistics` key and no `sample_data`
key, even when both inclusion flags are set: both additions are guarded by
`row_count > 0`. -/
theorem empty_table_shortcircuit (w : World) (s : Bool) (r : Nat) (st u : Bool)
    (m : Metadata) (t : String) (tm : TableMeta)
    (hfresh : (if u then load_from_cache w.cache w.now else none) = none)
    (hres : (extract_all_metadata w s r st u).result = Except.ok (some m))
    (hmem : (t, tm) ∈ m.tables) (h0 : tm.row_count = 0) :
    tm.column_statistics = none ∧ tm.sample_data = none := by
  have hbody := extract_fresh_ok w s r st u m hfresh hres
  obtain ⟨⟨tables, htab, hmap⟩, -⟩ := extractBody_ok_parts w s r st m hbody
  obtain ⟨info, hin, hpt⟩ := mapME_mem_ok _ tables m.tables hmap (t, tm) hmem
  exact processTable_zero_rows w.db s r st info t tm hpt h0

/-- One base table named `items` as the table-enumeration query reports it. -/
def tInfoEx : TableInfoRow := ⟨"items", "BASE TABLE", none, 0⟩

/-- A database with the single empty table `items`. -/
def db5 : DB := { dbEmpty with tables_q := Except.ok [tInfoEx] }

/-- A world over `db5` with no cache entry. -/
def w5 : World :=
  { db := db5
    connect_ok := true
    cache := CacheFile.absent
    now := 0
    now_iso := "2026-10-12T00:00:00"
    database_param := some "shop" }

/-- The `TableMeta` the extraction builds for the empty table `items`. -/
def tm5 : TableMeta :=
  { table_type := "BASE TABLE"
    comment := none
    row_count := 0
    table_size := "0 bytes"
    columns := []
    primary_keys := []
    foreign_keys := []
    indexes := []
    column_statistics := none
    sample_data := none }

/-- The snapshot the extraction over `w5` produces. -/
def m5 : Metadata :=
  { database_name := some "shop"
    extracted_at := "2026-10-12T00:00:00"
    total_tables := 1
    total_views := 0
    tables := [("items", tm5)]
    views := []
    relationships := [] }

/-- Witness for C5: the concrete empty table, extracted with both inclusion
flags set, carries neither statistics nor samples. -/
theorem empty_table_shortcircuit_witness :
    (extract_all_metadata w5 true 3 true true).result = Except.ok (some m5)
    ∧ ("items", tm5) ∈ m5.tables
    ∧ tm5.row_count = 0
    ∧ (tm5.column_statistics = none ∧ tm5.sample_data = none) :=
  ⟨rfl, by decide, rfl,
    empty_table_shortcircuit w5 true 3 true true m5 "items" tm5 rfl rfl
      (by decide) rfl⟩

/-! ## Claim C10 -/

theorem processView_sample (db : DB) (r : Nat) (info : ViewInfoRow)
    (v : String) (vm : ViewMeta)
    (h : processView db true r info = Except.ok (v, vm)) :
    vm.sample_data = some (get_sample_data db v r) := by
  unfold processView at h
  split at h
  · simp at h
  · rename_i columns hc
    simp only [Except.ok.injEq, Prod.mk.injEq] at h
    obtain ⟨hv, hvm⟩ := h
    subst hvm
    subst hv
    simp

/-- C10.  On the fresh extraction path with `include_samples` set, every
`ViewMeta` carries a `sample_data` key holding exactly the sample fetch for
that view: unlike tables, views get no row count and no empty-relation
short-circuit, so the key is added unconditionally. -/
theorem view_sample_unconditional (w : World) (r : Nat) (st u : Bool)
    (m : Metadata) (v : String) (vm : ViewMeta)
    (hfresh : (if u then load_from_cache w.cache w.now else none) = none)
    (hres : (extract_all_metadata w true r st u).result = Except.ok (some m))
    (hmem : (v, vm) ∈ m.views) :
    vm.sample_data = some (get_sample_data w.db v r) := by
  have hbody := extract_fresh_ok w true r st u m hfresh hres
  obtain ⟨-, ⟨views, hviews, hmap⟩⟩ := extractBody_ok_parts w true r st m hbody
  obtain ⟨info, hin, hpv⟩ := mapME_mem_ok _ views m.views hmap (v, vm) hmem
  exact processView_sample w.db r info v vm hpv

/-- One view named `v_orders` as the view-enumeration query reports it. -/
def vInfoEx : ViewInfoRow := ⟨"v_orders", "VIEW", none, some "SELECT 1;"⟩

/-- A database with the single view `v_orders` (its sample query returns no
rows). -/
def db10 : DB := { dbEmpty with views_q := Except.ok [vInfoEx] }

/-- A world over `db10` with no cache entry. -/
def w10 : World :=
  { db := db10
    connect_ok := true
    cache := CacheFile.absent
    now := 0
    now_iso := "2026-10-12T00:00:00"
    database_param := some "shop" }

/-- The `ViewMeta` the extraction builds for `v_orders`: `sample_data` is
present (here the empty row list). -/
def vm10 : ViewMeta :=
  { view_type := "VIEW"
    comment := none
    definition := some "SELECT 1;"
    columns := []
    sample_data := some [] }

/-- The snapshot the extraction over `w10` produces. -/
def m10 : Metadata :=
  { database_name := some "shop"
    extracted_at := "2026-10-12T00:00:00"
    total_tables := 0
    total_views := 1
    tables := []
    views := [("v_orders", vm10)]
    relationships := [] }

/-- Witness for C10: the concrete view's metadata carries the `sample_data`
key. -/
theorem view_sample_unconditional_witness :
    (extract_all_metadata w10 true 3 true true).result = Except.ok (some m10)
    ∧ ("v_orders", vm10) ∈ m10.views
    ∧ vm10.sample_data = some (get_sample_data w10.db "v_orders" 3) :=
  ⟨rfl, by decide,
    view_sample_unconditional w10 3 true true m10 "v_orders" vm10 rfl rfl (by decide)⟩

/-! ## Claim C2 -/

theorem processView_isOk (db : DB) (s : Bool) (r : Nat) (info : ViewInfoRow)
    (hcol : isOkE (db.columns_q info.view_name)) :
    isOkE (processView db s r info) := by
  obtain ⟨columns, hc⟩ := hcol
  simp only [processView, get_columns_info, hc]
  exact ⟨_, rfl⟩

theorem processTable_isOk (db : DB) (s : Bool) (r : Nat) (st : Bool)
    (info : TableInfoRow)
    (hcol : isOkE (db.columns_q info.table_name))
    (hfk : isOkE (db.fkeys_q info.table_name)) :
    isOkE (processTable db s r st info) := by
  obtain ⟨columns, hc⟩ := hcol
  obtain ⟨fks, hf⟩ := hfk
  by_cases hcond : st = true ∧ get_row_count db info.table_name > 0
  · simp only [processTable, get_columns_info, get_foreign_keys,
      get_column_statistics, hc, hf, if_pos hcond, Except.map]
    exact ⟨_, rfl⟩
  · simp only [processTable, get_columns_info, get_foreign_keys, hc, hf,
      if_neg hcond]
    exact ⟨_, rfl⟩

theorem extractBody_isOk (w : World) (s : Bool) (r : Nat) (st : Bool)
    (ht : isOkE w.db.tables_q) (hv : isOkE w.db.views_q) (hr : isOkE w.db.rel_q)
    (hcol : ∀ t, isOkE (w.db.columns_q t)) (hfk : ∀ t, isOkE (w.db.fkeys_q t)) :
    isOkE (extractBody w s r st) := by
  obtain ⟨tables, hts⟩ := ht
  obtain ⟨views, hvs⟩ := hv
  obtain ⟨rels, hrs⟩ := hr
  obtain ⟨tps, htps⟩ :=
    mapME_isOk (processTable w.db s r st) tables
      (fun info _ => processTable_isOk w.db s r st info (hcol _) (hfk _))
  obtain ⟨vps, hvps⟩ :=
    mapME_isOk (processView w.db s r) views
      (fun info _ => processView_isOk w.db s r info (hcol _))
  refine ⟨{ database_name := w.database_param, extracted_at := w.now_iso,
            total_tables := tables.length, total_views := views.length,
            tables := tps, views := vps,
            relationships := groupRelationships rels }, ?_⟩
  simp only [extractBody, get_tables_info, get_views_info,
    get_table_relationships, cursor_rel_query, hts, hvs, hrs, htps, hvps]

/-- C2 as amended.  Any error in a probing sub-step that the source wraps in
`try/except` — primary-key lookup, index lookup, row count, table size,
per-column statistics, sample fetch — is recovered locally and never aborts
sibling relations or the whole extraction: whenever the connection, the
table/view/relationship enumerations, the column enumeration and the
foreign-key lookups succeed, the call returns a snapshot no matter what the
other probes do.  (The foreign-key lookup itself is NOT recovered; see the
counterexample.) -/
theorem caught_probe_errors_never_abort (w : World) (s : Bool) (r : Nat)
    (st u : Bool) (hc : w.connect_ok = true)
    (ht : isOkE w.db.tables_q) (hv : isOkE w.db.views_q) (hr : isOkE w.db.rel_q)
    (hcol : ∀ t, isOkE (w.db.columns_q t)) (hfk : ∀ t, isOkE (w.db.fkeys_q t)) :
    ∃ m, (extract_all_metadata w s r st u).result = Except.ok (some m) := by
  unfold extract_all_metadata
  cases hcache : (if u then load_from_cache w.cache w.now else none) with
  | some m0 =>
      exact ⟨m0, rfl⟩
  | none =>
      rw [hc]
      obtain ⟨m, hm⟩ := extractBody_isOk w s r st ht hv hr hcol hfk
      rw [hm]
      exact ⟨m, rfl⟩

/-- A column as the column-enumeration query reports it. -/
def colEx : ColumnInfo := ⟨"id", "integer", none, some 32, some 0, "NO", none, none, 1⟩

/-- A database where every probe the source catches errors (PK, index,
sample, row count, table size, per-column statistics), while the fatal
queries succeed. -/
def dbAmend : DB :=
  { tables_q := Except.ok [tInfoEx]
    views_q := Except.ok []
    rel_q := Except.ok []
    columns_q := fun _ => Except.ok [colEx]
    pkeys_q := fun _ => Except.error "pk probe failed"
    fkeys_q := fun _ => Except.ok []
    indexes_q := fun _ => Except.error "index probe failed"
    sample_q := fun _ _ => Except.error "sample probe failed"
    rowcount_q := fun _ => Except.ok (some 5)
    tablesize_q := fun _ => Except.error "size probe failed"
    stat_q := fun _ _ => Except.error "stats probe failed" }

/-- A world over `dbAmend`. -/
def wAmend : World :=
  { db := dbAmend
    connect_ok := true
    cache := CacheFile.absent
    now := 0
    now_iso := "2026-10-12T00:00:00"
    database_param := some "shop" }

/-- Witness for the amended C2: with the PK, index, sample, size and
statistics probes all erroring, the extraction still returns a snapshot. -/
theorem caught_probe_errors_never_abort_witness :
    wAmend.connect_ok = true
    ∧ isOkE wAmend.db.tables_q ∧ isOkE wAmend.db.views_q ∧ isOkE wAmend.db.rel_q
    ∧ (∀ t, isOkE (wAmend.db.columns_q t))
    ∧ (∀ t, isOkE (wAmend.db.fkeys_q t))
    ∧ ∃ m, (extract_all_metadata wAmend true 3 true false).result
        = Except.ok (some m) :=
  ⟨rfl, ⟨_, rfl⟩, ⟨_, rfl⟩, ⟨_, rfl⟩, fun _ => ⟨_, rfl⟩, fun _ => ⟨_, rfl⟩,
    caught_probe_errors_never_abort wAmend true 3 true false rfl
      ⟨_, rfl⟩ ⟨_, rfl⟩ ⟨_, rfl⟩ (fun _ => ⟨_, rfl⟩) (fun _ => ⟨_, rfl⟩)⟩

/-- A database identical to `db5`'s schema but whose foreign-key query
raises for every table.  `get_foreign_keys` has no `try/except`. -/
def db2 : DB :=
  { dbEmpty with
      tables_q := Except.ok [tInfoEx]
      fkeys_q := fun _ => Except.error "fk probe failed" }

/-- A world over `db2`. -/
def w2 : World :=
  { db := db2
    connect_ok := true
    cache := CacheFile.absent
    now := 0
    now_iso := "2026-10-12T00:00:00"
    database_param := some "shop" }

/-- Counterexample to C2 as stated: an error in the per-relation
foreign-key lookup — one of the sub-steps the claim says is recovered
locally — propagates out of `extract_all_metadata` and aborts the whole
extraction, because `get_foreign_keys` alone among the per-relation probes
has no `try/except`. -/
theorem fk_error_aborts_extraction :
    (extract_all_metadata w2 true 3 true false).result
      = Except.error "fk probe failed" := rfl

/-! ## Claim C3 -/

/-- A world whose `psycopg2.connect` fails. -/
def w3 : World :=
  { db := dbEmpty
    connect_ok := false
    cache := CacheFile.absent
    now := 0
    now_iso := "2026-10-12T00:00:00"
    database_param := some "shop" }

/-- Counterexample to C3 as stated: on connection failure the call returns
the literal empty dict `{}` (modelled `none`) — a value that is not a
snapshot and has no `total_tables`/`total_views` fields at all — so no
`Metadata` with zero-valued fields is returned. -/
theorem connect_failure_returns_bare_empty_dict :
    (extract_all_metadata w3 true 3 true true).result = Except.ok none
    ∧ ¬ ∃ m : Metadata,
        (extract_all_metadata w3 true 3 true true).result = Except.ok (some m) := by
  constructor
  · rfl
  · rintro ⟨m, hm⟩
    rw [show (extract_all_metadata w3 true 3 true true).result
        = Except.ok none from rfl] at hm
    simp at hm

/-- C3 as amended.  When the cache is unused or misses and the connection
fails, the call propagates no exception and returns the literal empty
dictionary — carrying no fields whatsoever, hence trivially no tables, views
or relationships — and leaves the cache untouched. -/
theorem connect_failure_yields_empty_dict (w : World) (s : Bool) (r : Nat)
    (st u : Bool)
    (hfresh : (if u then load_from_cache w.cache w.now else none) = none)
    (hconn : w.connect_ok = false) :
    (extract_all_metadata w s r st u).result = Except.ok none
    ∧ (extract_all_metadata w s r st u).cache_after = w.cache := by
  unfold extract_all_metadata
  rw [hfresh, hconn]
  exact ⟨rfl, rfl⟩

/-- Witness for the amended C3 on the concrete failing world. -/
theorem connect_failure_yields_empty_dict_witness :
    ((if true then load_from_cache w3.cache w3.now else none) = none)
    ∧ w3.connect_ok = false
    ∧ ((extract_all_metadata w3 true 3 true true).result = Except.ok none
       ∧ (extract_all_metadata w3 true 3 true true).cache_after = w3.cache) :=
  ⟨rfl, rfl, connect_failure_yields_empty_dict w3 true 3 true true rfl rfl⟩

/-! ## Claim C1 -/

/-- A database whose relationship query reports one foreign-key edge. -/
def dbRelB : DB :=
  { dbEmpty with rel_q := Except.ok [⟨"orders", "user_id", "users", "id"⟩] }

/-- C1 is a code bug, and this theorem evaluates the code at the failing
input: `format_for_ai` is not a pure function of the snapshot.  Via
`generate_relationship_diagram` it re-runs the relationship query on
`self.cursor` instead of reading the snapshot's own `relationships` entry, so
(a) called after `extract_all_metadata` has closed the connection — as the
module's own `__main__` block and every caller in `main.py` do — it raises on
the closed cursor, and (b) with the cursor open, its output changes with live
database state while the snapshot argument is held fixed. -/
theorem format_for_ai_consults_database :
    format_for_ai (some mEx) CursorState.closed
        = Except.error "InterfaceError: cursor already closed"
    ∧ format_for_ai (some mEx) (CursorState.live dbEmpty)
        ≠ format_for_ai (some mEx) (CursorState.live dbRelB) := by
  constructor
  · rfl
  · intro h
    have ha := congrArg
      (fun e => match e with | Except.ok s => s | Except.error s => s) h
    exact absurd ha (by decide)

end AskDB
